import Mathlib

/-!
Verification of the Azure API Management provisioning helpers
(`apim_operations`) and the REST-client response conversion (`api_client.ts`)
of the io-developer-portal-backend repository.

The TypeScript source is embedded shallowly:
* the external Azure API Management client is modelled as an explicit state
  (`ApimState`) holding the stored subscriptions, products, group lists and
  memberships, plus a fault model for group-membership creation calls;
* every operation returns an `ApiResult`: its value, the state after the
  call, and the trace of external calls it performed (`Event`);
* a promise that resolves with an fp-ts `Either` is embedded as
  `Except ApiError (Either ε α)`: the outer `Except.error` models a rejected
  promise (a thrown error), the inner `Either.left` models the explicit
  error result value.
-/

deriving instance DecidableEq for Except

namespace Portal

/-- fp-ts `Either`, as used by the source for explicit success-or-error
result values. -/
inductive Either (ε α : Type) where
  | left (e : ε)
  | right (a : α)
deriving Repr, DecidableEq

/-- Failure of an external Azure call, surfaced by the SDK as a rejected
promise. -/
inductive ApiError where
  | notFound (resource : String)
  | callFailed (resource : String)
deriving Repr, DecidableEq

/-- `msRestAzure.TokenResponse`: the fields read by the source.  `expiresOn`
is the epoch-milliseconds timestamp obtained by
`new Date(token.expiresOn).getTime()`. -/
structure TokenResponse where
  expiresOn : Nat
  accessToken : String
deriving Repr, DecidableEq

/-- `ITokenAndCredentials` from the source: the cached token plus the opaque
MSI login credentials (opaque, so modelled as a tag). -/
structure TokenAndCredentials where
  token : TokenResponse
  loginCreds : String
deriving Repr, DecidableEq

/-- `SubscriptionContract`: the fields the source reads or writes.  All
Azure contract fields are optional strings in the SDK, hence `Option`.
The two rotatable secret keys are modelled as counters, following the
spec's testable property ("mock increments a counter on regenerate"):
the regenerate mutation replaces a key by a fresh one. -/
structure SubscriptionContract where
  userId : Option String
  name : Option String
  displayName : Option String
  productId : Option String
  state : Option String
  primaryKey : Nat
  secondaryKey : Nat
deriving Repr, DecidableEq

/-- `ProductContract`: the source only reads `product.id`. -/
structure ProductContract where
  id : Option String
deriving Repr, DecidableEq

/-- `GroupContract` as returned by `userGroup.list`: the source reads only
`g.name`. -/
structure GroupContract where
  name : Option String
deriving Repr, DecidableEq

/-- `UserContract`: the source reads only `user.name`. -/
structure UserContract where
  name : Option String
deriving Repr, DecidableEq

/-- Trace of the external calls an operation performs.  Group-membership
creation is traced with distinct begin/completion events so that
sequencing (no two calls in flight at once) is expressible; the other
mutations are single events. -/
inductive Event where
  | regenPrimary (subscriptionId : String)
  | regenSecondary (subscriptionId : String)
  | subCreateOrUpdate (subscriptionId : String)
  | groupUserCreateStart (group : String)
  | groupUserCreateEnd (group : String)
deriving Repr, DecidableEq

/-- The state of the external Azure API Management service, keyed
association lists for each resource kind.  `memberships` records the
(group, user) pairs added by `groupUser.create`; `groupCreateFails` is the
fault model: the groups whose creation call the service rejects. -/
structure ApimState where
  subscriptions : List (String × SubscriptionContract)
  products : List (String × ProductContract)
  userGroups : List (String × List GroupContract)
  memberships : List (String × String)
  groupCreateFails : List String
deriving Repr, DecidableEq

/-- Outcome of an embedded operation: the returned value, the state of the
external service afterwards, and the trace of external calls made. -/
structure ApiResult (α : Type) where
  result : α
  state : ApimState
  events : List Event
deriving Repr, DecidableEq

/-- Association-list lookup (first match wins), used for every keyed
resource of `ApimState`. -/
def lookupKey {β : Type} : List (String × β) → String → Option β
  | [], _ => none
  | (k, v) :: rest, key => if k = key then some v else lookupKey rest key

/-- JavaScript string falsiness, as used by checks such as
`!subscription.name`: an absent or empty string is falsy. -/
def falsyName : Option String → Bool
  | none => true
  | some s => s == ""

/-! ## Token cache (`loginToApim`) -/

/-- `loginToApim` from the source, with the impure inputs made explicit:
`now` is `Date.now()` and `freshCreds` is the pair that
`loginWithAppServiceMSI` + `getToken` would produce on a fresh login.  The
returned `Bool` records whether that fresh login path was taken.  The body
mirrors the source: `tokenExpireTime` is the cached token's expiry (or 0),
`isTokenExpired` is the source's comparison `tokenExpireTime >= Date.now()`,
and the cached pair is returned when it is present and `!isTokenExpired`. -/
def loginToApim (now : Nat) (freshCreds : TokenAndCredentials)
    (tokenCreds : Option TokenAndCredentials) : TokenAndCredentials × Bool :=
  let tokenExpireTime : Nat :=
    match tokenCreds with
    | some tc => tc.token.expiresOn
    | none => 0
  let isTokenExpired : Bool := decide (tokenExpireTime ≥ now)
  match tokenCreds with
  | some tc => if !isTokenExpired then (tc, false) else (freshCreds, true)
  | none => (freshCreds, true)

/-! ## Subscription manager -/

/-- The external `apiClient.subscription.get`.  Modelled from the Azure API
Management REST semantics referenced by the source header comment: a GET of
a missing resource fails with 404, which the SDK surfaces as a rejected
promise. -/
def subscriptionGet (st : ApimState) (subscriptionId : String) :
    Except ApiError SubscriptionContract :=
  match lookupKey st.subscriptions subscriptionId with
  | some s => .ok s
  | none => .error (.notFound subscriptionId)

/-- `getUserSubscription` from the source: fetch the subscription by id and
return `none` unless its `userId` matches the requested one and its `name`
is usable (non-falsy); a failed fetch propagates (the `await` rethrows). -/
def getUserSubscription (st : ApimState) (subscriptionId userId : String) :
    Except ApiError (Option SubscriptionContract) :=
  match subscriptionGet st subscriptionId with
  | .error e => .error e
  | .ok subscription =>
    if subscription.userId ≠ some userId ∨ falsyName subscription.name then
      .ok none
    else
      .ok (some subscription)

/-- The external `apiClient.subscription.regeneratePrimaryKey` mutation:
the stored record's primary key is replaced by a fresh one (counter bump,
per the spec's mock). -/
def regeneratePrimaryKeyCall (st : ApimState) (subscriptionId : String) :
    ApimState :=
  { st with
    subscriptions := st.subscriptions.map (fun p =>
      (p.1, if p.1 = subscriptionId then
        { p.2 with primaryKey := p.2.primaryKey + 1 }
      else p.2)) }

/-- The external `apiClient.subscription.regenerateSecondaryKey` mutation. -/
def regenerateSecondaryKeyCall (st : ApimState) (subscriptionId : String) :
    ApimState :=
  { st with
    subscriptions := st.subscriptions.map (fun p =>
      (p.1, if p.1 = subscriptionId then
        { p.2 with secondaryKey := p.2.secondaryKey + 1 }
      else p.2)) }

/-- `regeneratePrimaryKey` from the source: verify ownership via
`getUserSubscription`; on `none` short-circuit with `none`; otherwise issue
the regenerate mutation and re-fetch. -/
def regeneratePrimaryKey (st : ApimState) (subscriptionId userId : String) :
    ApiResult (Except ApiError (Option SubscriptionContract)) :=
  match getUserSubscription st subscriptionId userId with
  | .error e => ⟨.error e, st, []⟩
  | .ok none => ⟨.ok none, st, []⟩
  | .ok (some _) =>
    let st2 := regeneratePrimaryKeyCall st subscriptionId
    ⟨getUserSubscription st2 subscriptionId userId, st2,
      [.regenPrimary subscriptionId]⟩

/-- `regenerateSecondaryKey` from the source, same shape as
`regeneratePrimaryKey`. -/
def regenerateSecondaryKey (st : ApimState) (subscriptionId userId : String) :
    ApiResult (Except ApiError (Option SubscriptionContract)) :=
  match getUserSubscription st subscriptionId userId with
  | .error e => ⟨.error e, st, []⟩
  | .ok none => ⟨.ok none, st, []⟩
  | .ok (some _) =>
    let st2 := regenerateSecondaryKeyCall st subscriptionId
    ⟨getUserSubscription st2 subscriptionId userId, st2,
      [.regenSecondary subscriptionId]⟩

/-- The external `apiClient.product.get` by product name; the source
defensively checks a falsy resolution (`!product`), so the lookup is
modelled as possibly-absent. -/
def productGet (st : ApimState) (productName : String) :
    Option ProductContract :=
  lookupKey st.products productName

/-- Insert-or-replace of a stored subscription record, the effect of the
external `apiClient.subscription.createOrUpdate`. -/
def upsertSubscription :
    List (String × SubscriptionContract) → String → SubscriptionContract →
    List (String × SubscriptionContract)
  | [], sid, s => [(sid, s)]
  | (k, v) :: rest, sid, s =>
    if k = sid then (sid, s) :: rest else (k, v) :: upsertSubscription rest sid s

/-- The external `apiClient.subscription.createOrUpdate`: stores a record
built from the given parameters (the service sets `name` to the
subscription id and keeps the keys of an existing record, fresh keys
otherwise) and resolves with the stored record. -/
def subscriptionCreateOrUpdate (st : ApimState) (subscriptionId : String)
    (displayName productId state userId : String) :
    SubscriptionContract × ApimState :=
  let keys : Nat × Nat :=
    match lookupKey st.subscriptions subscriptionId with
    | some s => (s.primaryKey, s.secondaryKey)
    | none => (0, 0)
  let record : SubscriptionContract :=
    { userId := some userId
      name := some subscriptionId
      displayName := some displayName
      productId := some productId
      state := some state
      primaryKey := keys.1
      secondaryKey := keys.2 }
  (record, { st with
    subscriptions := upsertSubscription st.subscriptions subscriptionId record })

/-- `addUserSubscriptionToProduct` from the source.  `ulid` is the fresh
identifier produced by the external ULID generator (a lexicographically
sortable unique id), made an explicit argument: resolve the product by
name, fail with an explicit `left` when it is absent or lacks an id,
otherwise create/update the subscription under the generated id with state
`"active"`. -/
def addUserSubscriptionToProduct (st : ApimState)
    (userId productName ulid : String) :
    ApiResult (Either String SubscriptionContract) :=
  match productGet st productName with
  | none => ⟨.left "Cannot find API management product for update", st, []⟩
  | some product =>
    match product.id with
    | none => ⟨.left "Cannot find API management product for update", st, []⟩
    | some productId =>
      let subscriptionId := ulid
      let created :=
        subscriptionCreateOrUpdate st subscriptionId subscriptionId productId
          "active" userId
      ⟨.right created.1, created.2, [.subCreateOrUpdate subscriptionId]⟩

/-! ## Group membership synchronizer -/

/-- The external `apiClient.userGroup.list` for a user (first result page). -/
def userGroupList (st : ApimState) (userName : String) : List GroupContract :=
  (lookupKey st.userGroups userName).getD []

/-- The external `apiClient.groupUser.create`: per the fault model it either
rejects (for groups in `groupCreateFails`) or records the membership.
Either way the call begins and completes, hence the two trace events. -/
def groupUserCreate (st : ApimState) (group userName : String) :
    ApiResult (Except ApiError Unit) :=
  if group ∈ st.groupCreateFails then
    ⟨.error (.callFailed group), st,
      [.groupUserCreateStart group, .groupUserCreateEnd group]⟩
  else
    ⟨.ok (), { st with memberships := st.memberships ++ [(group, userName)] },
      [.groupUserCreateStart group, .groupUserCreateEnd group]⟩

/-- The awaited `reduce` chain of `addUserToGroups`: process the groups in
order, each `groupUser.create` starting only after the previous one
completed (`await prev`), accumulating `[...addedGroups, group]`; a
rejection propagates and stops every later call. -/
def addGroupsSeq : ApimState → String → List String → List String →
    ApiResult (Except ApiError (List String))
  | st, _, addedGroups, [] => ⟨.ok addedGroups, st, []⟩
  | st, userName, addedGroups, group :: rest =>
    let r := groupUserCreate st group userName
    match r.result with
    | .error e => ⟨.error e, r.state, r.events⟩
    | .ok _ =>
      let r2 := addGroupsSeq r.state userName (addedGroups ++ [group]) rest
      ⟨r2.result, r2.state, r.events ++ r2.events⟩

/-- The set difference computed by `addUserToGroups`: the desired groups
whose name is not among the user's current group names (a JS `Set` of
possibly-undefined names; `has(g)` can only match defined names). -/
def missingGroupsOf (st : ApimState) (userName : String)
    (groups : List String) : List String :=
  let existingGroupsNames := (userGroupList st userName).map (fun g => g.name)
  groups.filter (fun g => decide (some g ∉ existingGroupsNames))

/-- `addUserToGroups` from the source: reject malformed users with an
explicit `left`; list the current groups; if no desired group is missing,
return `right []` with no mutation; otherwise run the awaited `reduce`
chain over the full `groups` list (as the source does), wrapping its value
in `right` — a rejection of the chain propagates as `Except.error`. -/
def addUserToGroups (st : ApimState) (user : Option UserContract)
    (groups : List String) :
    ApiResult (Except ApiError (Either String (List String))) :=
  match user with
  | none => ⟨.ok (.left "Cannot parse user"), st, []⟩
  | some u =>
    if falsyName u.name then ⟨.ok (.left "Cannot parse user"), st, []⟩
    else
      let userName := u.name.getD ""
      if (missingGroupsOf st userName groups).isEmpty then
        ⟨.ok (.right []), st, []⟩
      else
        let r := addGroupsSeq st userName [] groups
        match r.result with
        | .ok added => ⟨.ok (.right added), r.state, r.events⟩
        | .error e => ⟨.error e, r.state, r.events⟩

/-! ## REST client response conversion (`api_client.ts`) -/

/-- The shape of a decoded response as read by `toEither`: a status code
and a decoded value (`ApiResponseType` instances carry exactly these two
fields).  An fp-ts `Error` is modelled by its message string. -/
structure ResponseType (T : Type) where
  status : Nat
  value : T
deriving Repr, DecidableEq

/-- `toEither` from `api_client.ts`: an absent response or a status other
than 200/201 becomes an explicit `left`; only 200/201 yield `right` of the
decoded value. -/
def toEither {T : Type} (res : Option (ResponseType T)) : Either String T :=
  match res with
  | none => .left "Response is empty"
  | some r =>
    if r.status = 200 ∨ r.status = 201 then .right r.value
    else .left ("Error parsing response: " ++ toString r.status)

/-! ## Concrete fixtures -/

/-- A cached credential pair whose token expired at time 500. -/
def c1Stale : TokenAndCredentials := ⟨⟨500, "stale-token"⟩, "stale-login"⟩

/-- A cached credential pair whose token is valid until time 2000. -/
def c1Valid : TokenAndCredentials := ⟨⟨2000, "valid-token"⟩, "valid-login"⟩

/-- The credential pair a fresh MSI login would produce. -/
def c1Fresh : TokenAndCredentials := ⟨⟨9999, "fresh-token"⟩, "fresh-login"⟩

/-- A service state where user `u1` currently belongs to group `A` only and
every group-creation call succeeds. -/
def c2State : ApimState :=
  { subscriptions := []
    products := []
    userGroups := [("u1", [⟨some "A"⟩])]
    memberships := []
    groupCreateFails := [] }

/-- A service state where user `u1` belongs to no group and the creation
call for group `B` fails. -/
def c3State : ApimState :=
  { subscriptions := []
    products := []
    userGroups := [("u1", [])]
    memberships := []
    groupCreateFails := ["B"] }

/-- Discriminates a rejected promise (`Except.error`, a thrown failure)
from a resolved one. -/
def isThrown {α : Type} : Except ApiError α → Bool
  | .error _ => true
  | .ok _ => false

/-- The trace left by a sequence of completed group-creation calls: each
call's begin event immediately followed by its completion event. -/
def pairEvents : List String → List Event
  | [] => []
  | g :: rest =>
    .groupUserCreateStart g :: .groupUserCreateEnd g :: pairEvents rest

/-- Checks that a trace consists solely of group-creation calls that never
overlap: a call may begin only when no call is in flight and complete only
when one is.  The `Bool` argument tracks whether a call is in flight. -/
def seqOk : List Event → Bool → Bool
  | [], _ => true
  | .groupUserCreateStart _ :: rest, false => seqOk rest true
  | .groupUserCreateEnd _ :: rest, true => seqOk rest false
  | _, _ => false

/-- A subscription record owned by a different user than `u1`. -/
def subOther : SubscriptionContract :=
  { userId := some "other-user", name := some "s1", displayName := some "s1"
    productId := some "p1", state := some "active"
    primaryKey := 3, secondaryKey := 4 }

/-- A service state holding no resources at all. -/
def c5EmptyState : ApimState :=
  { subscriptions := [], products := [], userGroups := []
    memberships := [], groupCreateFails := [] }

/-- A service state whose only subscription `s1` belongs to another user. -/
def c5OtherState : ApimState :=
  { subscriptions := [("s1", subOther)], products := [], userGroups := []
    memberships := [], groupCreateFails := [] }

/-- A subscription record owned by `u1` with primary key 7. -/
def c6Pre : SubscriptionContract :=
  { userId := some "u1", name := some "s1", displayName := some "s1"
    productId := some "p1", state := some "active"
    primaryKey := 7, secondaryKey := 9 }

/-- A service state where `u1` owns subscription `s1`. -/
def c6State : ApimState :=
  { subscriptions := [("s1", c6Pre)], products := [], userGroups := []
    memberships := [], groupCreateFails := [] }

/-- A subscription record owned by `u1` under id `s2`. -/
def c7Mine : SubscriptionContract :=
  { userId := some "u1", name := some "s2", displayName := some "s2"
    productId := some "p1", state := some "active"
    primaryKey := 1, secondaryKey := 2 }

/-- A service state with one foreign-owned and one `u1`-owned
subscription. -/
def c7State : ApimState :=
  { subscriptions := [("s1", subOther), ("s2", c7Mine)], products := []
    userGroups := [], memberships := [], groupCreateFails := [] }

/-- A service state with a single product `prodA` whose id is `pid-1`. -/
def c8State : ApimState :=
  { subscriptions := [], products := [("prodA", ⟨some "pid-1"⟩)]
    userGroups := [], memberships := [], groupCreateFails := [] }

/-- The record stored for `s1` in `c6State` after one primary-key
regeneration. -/
def c10Post : SubscriptionContract :=
  { userId := some "u1", name := some "s1", displayName := some "s1"
    productId := some "p1", state := some "active"
    primaryKey := 8, secondaryKey := 9 }

/-! ## Theorems -/

/-- Unfolds an association-list lookup through the per-entry update that a
key-regeneration mutation applies. -/
theorem lookupKey_map_if {β : Type} (l : List (String × β)) (key : String)
    (f : β → β) :
    lookupKey (l.map (fun p => (p.1, if p.1 = key then f p.2 else p.2))) key =
      (lookupKey l key).map f := by
  induction l with
  | nil => rfl
  | cons p rest ih =>
    obtain ⟨k, v⟩ := p
    by_cases hk : k = key
    · subst hk
      simp [lookupKey]
    · simp [lookupKey, hk, ih]

/-- A non-falsy optional string is a present, non-empty string. -/
theorem falsyName_eq_false {o : Option String} (h : falsyName o = false) :
    ∃ n, o = some n ∧ n ≠ "" := by
  cases o with
  | none => simp [falsyName] at h
  | some s =>
    refine ⟨s, rfl, ?_⟩
    simpa [falsyName] using h

/-- Inversion for a present `getUserSubscription` result: the record is the
stored one, is owned by the requested user, and has a usable name. -/
theorem getUserSubscription_ok_some {st : ApimState} {sid uid : String}
    {r : SubscriptionContract}
    (h : getUserSubscription st sid uid = .ok (some r)) :
    lookupKey st.subscriptions sid = some r ∧ r.userId = some uid ∧
      falsyName r.name = false := by
  unfold getUserSubscription subscriptionGet at h
  cases hl : lookupKey st.subscriptions sid with
  | none => rw [hl] at h; simp at h
  | some s =>
    rw [hl] at h
    dsimp only at h
    split at h
    · simp at h
    · rename_i hcond
      push_neg at hcond
      obtain ⟨h1, h2⟩ := hcond
      obtain rfl : s = r := by
        have := Except.ok.inj h
        exact Option.some.inj this
      exact ⟨rfl, h1, by simpa using h2⟩

/-- A stored record owned by the requested user with a usable name is
returned by `getUserSubscription`. -/
theorem getUserSubscription_of_lookup {st : ApimState} {sid uid : String}
    {s : SubscriptionContract}
    (hl : lookupKey st.subscriptions sid = some s)
    (hu : s.userId = some uid) (hn : falsyName s.name = false) :
    getUserSubscription st sid uid = .ok (some s) := by
  unfold getUserSubscription subscriptionGet
  rw [hl]
  dsimp only
  rw [if_neg]
  rintro (hc | hc)
  · exact hc hu
  · rw [hn] at hc
    exact Bool.false_ne_true hc

/-- C7: `getUserSubscription` returns absent whenever the stored record's
`userId` differs from the requested one or its name is unusable, and every
present result it returns is owned by the requested user and carries a
non-empty name. -/
theorem getUserSubscription_ownership (st : ApimState)
    (subscriptionId userId : String) :
    (∀ s, lookupKey st.subscriptions subscriptionId = some s →
      s.userId ≠ some userId ∨ falsyName s.name = true →
      getUserSubscription st subscriptionId userId = .ok none) ∧
    (∀ r, getUserSubscription st subscriptionId userId = .ok (some r) →
      r.userId = some userId ∧ ∃ n, r.name = some n ∧ n ≠ "") := by
  constructor
  · intro s hl hcond
    unfold getUserSubscription subscriptionGet
    rw [hl]
    dsimp only
    rw [if_pos]
    rcases hcond with hc | hc
    · exact Or.inl hc
    · exact Or.inr hc
  · intro r h
    obtain ⟨_, hu, hn⟩ := getUserSubscription_ok_some h
    exact ⟨hu, falsyName_eq_false hn⟩

/-- C7 witness: in `c7State`, looking up the foreign-owned `s1` as `u1`
yields absent, and the present result for `s2` satisfies the ownership
invariant. -/
theorem getUserSubscription_ownership_witness :
    getUserSubscription c7State "s1" "u1" = .ok none ∧
    (c7Mine.userId = some "u1" ∧ ∃ n, c7Mine.name = some n ∧ n ≠ "") :=
  ⟨(getUserSubscription_ownership c7State "s1" "u1").1 subOther (by decide)
    (Or.inl (by decide)),
   (getUserSubscription_ownership c7State "s2" "u1").2 c7Mine (by decide)⟩

/-- C10: every present record returned by either key-regeneration
operation is owned by the requested user and carries a non-empty name,
because both produce their result exclusively through
`getUserSubscription`. -/
theorem regenerate_result_invariant (st : ApimState) (sid uid : String)
    (r : SubscriptionContract)
    (h : (regeneratePrimaryKey st sid uid).result = .ok (some r) ∨
      (regenerateSecondaryKey st sid uid).result = .ok (some r)) :
    r.userId = some uid ∧ ∃ n, r.name = some n ∧ n ≠ "" := by
  have key : ∀ st2 : ApimState, getUserSubscription st2 sid uid = .ok (some r) →
      r.userId = some uid ∧ ∃ n, r.name = some n ∧ n ≠ "" := by
    intro st2 h2
    obtain ⟨_, hu, hn⟩ := getUserSubscription_ok_some h2
    exact ⟨hu, falsyName_eq_false hn⟩
  rcases h with h | h
  · unfold regeneratePrimaryKey at h
    split at h
    · simp at h
    · simp at h
    · exact key _ h
  · unfold regenerateSecondaryKey at h
    split at h
    · simp at h
    · simp at h
    · exact key _ h

/-- C10 witness: the invariant applied to the record returned by a
successful primary-key regeneration in `c6State`. -/
theorem regenerate_result_invariant_witness :
    c10Post.userId = some "u1" ∧ ∃ n, c10Post.name = some n ∧ n ≠ "" :=
  regenerate_result_invariant c6State "s1" "u1" c10Post (Or.inl (by decide))

/-- C5 counterexample: on a missing subscription the fetch failure
propagates as a rejection — the result is `Except.error`, not the absent
value the claim demands. -/
theorem regeneratePrimaryKey_missing_not_absent :
    lookupKey c5EmptyState.subscriptions "s1" = none ∧
    (regeneratePrimaryKey c5EmptyState "s1" "u1").result
      = .error (.notFound "s1") ∧
    (regeneratePrimaryKey c5EmptyState "s1" "u1").result ≠ .ok none ∧
    (regenerateSecondaryKey c5EmptyState "s1" "u1").result
      = .error (.notFound "s1") ∧
    (regenerateSecondaryKey c5EmptyState "s1" "u1").result ≠ .ok none := by
  decide

/-- C5 (amended): whenever the ownership check does not produce a record —
it returns absent for a non-owned or unnamed record, or propagates the
fetch failure for a missing one — both regenerate operations return that
very outcome, leave the service state unchanged, and issue no mutation
call. -/
theorem regenerate_no_mutation_without_ownership (st : ApimState)
    (sid uid : String)
    (h : ∀ s, getUserSubscription st sid uid ≠ .ok (some s)) :
    regeneratePrimaryKey st sid uid = ⟨getUserSubscription st sid uid, st, []⟩ ∧
    regenerateSecondaryKey st sid uid =
      ⟨getUserSubscription st sid uid, st, []⟩ := by
  constructor
  · unfold regeneratePrimaryKey
    split
    · rename_i e heq
      rw [heq]
    · rename_i heq
      rw [heq]
    · rename_i s heq
      exact absurd heq (h s)
  · unfold regenerateSecondaryKey
    split
    · rename_i e heq
      rw [heq]
    · rename_i heq
      rw [heq]
    · rename_i s heq
      exact absurd heq (h s)

/-- C5 witness: in `c5OtherState` the only subscription belongs to another
user, so both regenerations return the absent ownership-check outcome with
the state untouched and no mutation event. -/
theorem regenerate_no_mutation_without_ownership_witness :
    regeneratePrimaryKey c5OtherState "s1" "u1" =
      ⟨getUserSubscription c5OtherState "s1" "u1", c5OtherState, []⟩ ∧
    regenerateSecondaryKey c5OtherState "s1" "u1" =
      ⟨getUserSubscription c5OtherState "s1" "u1", c5OtherState, []⟩ :=
  regenerate_no_mutation_without_ownership c5OtherState "s1" "u1"
    (fun _ hs => Option.noConfusion (Except.ok.inj hs))

/-- C6: on an owned subscription, `regeneratePrimaryKey` issues exactly the
regenerate mutation and returns the re-fetched post-mutation record — the
record now stored for that id — whose primary key differs from the
pre-call record's primary key. -/
theorem regeneratePrimaryKey_returns_fresh_record (st : ApimState)
    (sid uid : String) (pre : SubscriptionContract)
    (h : getUserSubscription st sid uid = .ok (some pre)) :
    regeneratePrimaryKey st sid uid =
      ⟨.ok (some { pre with primaryKey := pre.primaryKey + 1 }),
       regeneratePrimaryKeyCall st sid, [.regenPrimary sid]⟩ ∧
    lookupKey (regeneratePrimaryKeyCall st sid).subscriptions sid =
      some { pre with primaryKey := pre.primaryKey + 1 } ∧
    ({ pre with primaryKey := pre.primaryKey + 1 } :
      SubscriptionContract).primaryKey ≠ pre.primaryKey := by
  obtain ⟨hl, hu, hn⟩ := getUserSubscription_ok_some h
  have hl2 : lookupKey (regeneratePrimaryKeyCall st sid).subscriptions sid =
      some { pre with primaryKey := pre.primaryKey + 1 } := by
    have hmap := lookupKey_map_if st.subscriptions sid
      (fun s => { s with primaryKey := s.primaryKey + 1 })
    rw [hl] at hmap
    exact hmap
  have hfetch : getUserSubscription (regeneratePrimaryKeyCall st sid) sid uid =
      .ok (some { pre with primaryKey := pre.primaryKey + 1 }) :=
    getUserSubscription_of_lookup hl2 hu hn
  refine ⟨?_, hl2, by simp⟩
  unfold regeneratePrimaryKey
  rw [h]
  dsimp only
  rw [hfetch]

/-- C6 witness: regenerating the primary key of `s1` in `c6State` returns
the stored record with its key bumped from 7 to 8. -/
theorem regeneratePrimaryKey_returns_fresh_record_witness :
    regeneratePrimaryKey c6State "s1" "u1" =
      ⟨.ok (some { c6Pre with primaryKey := c6Pre.primaryKey + 1 }),
       regeneratePrimaryKeyCall c6State "s1", [.regenPrimary "s1"]⟩ ∧
    lookupKey (regeneratePrimaryKeyCall c6State "s1").subscriptions "s1" =
      some { c6Pre with primaryKey := c6Pre.primaryKey + 1 } ∧
    ({ c6Pre with primaryKey := c6Pre.primaryKey + 1 } :
      SubscriptionContract).primaryKey ≠ c6Pre.primaryKey :=
  regeneratePrimaryKey_returns_fresh_record c6State "s1" "u1" c6Pre (by decide)

/-- C8: when the product resolves with an id, a subscription is
created/updated under the generated identifier with state `active`, the
resolved product's id and the requested user, and is returned as a
success; when the product is absent or lacks an id, an explicit error
result is returned and no creation is attempted. -/
theorem addUserSubscriptionToProduct_spec (st : ApimState)
    (userId productName ulid : String) :
    ((productGet st productName).bind (fun p => p.id) = none →
      addUserSubscriptionToProduct st userId productName ulid =
        ⟨.left "Cannot find API management product for update", st, []⟩) ∧
    (∀ p productId, productGet st productName = some p →
      p.id = some productId →
      ∃ r, addUserSubscriptionToProduct st userId productName ulid =
        ⟨.right r,
         { st with subscriptions := upsertSubscription st.subscriptions ulid r },
         [.subCreateOrUpdate ulid]⟩ ∧
        r.productId = some productId ∧ r.state = some "active" ∧
        r.userId = some userId ∧ r.name = some ulid ∧
        r.displayName = some ulid) := by
  constructor
  · intro h
    unfold addUserSubscriptionToProduct
    cases hp : productGet st productName with
    | none => rfl
    | some p =>
      rw [hp] at h
      simp at h
      dsimp only
      rw [h]
  · intro p productId hp hid
    refine ⟨(subscriptionCreateOrUpdate st ulid ulid productId "active"
      userId).1, ?_, rfl, rfl, rfl, rfl, rfl⟩
    unfold addUserSubscriptionToProduct
    rw [hp]
    dsimp only
    rw [hid]
    rfl

/-- C8 witness: in `c8State` the lookup of an unknown product fails with
the explicit error and no creation, while `prodA` resolves to id `pid-1`
and yields an active subscription for `u1` under the generated id. -/
theorem addUserSubscriptionToProduct_spec_witness :
    (addUserSubscriptionToProduct c8State "u1" "nope" "01ULID" =
      ⟨.left "Cannot find API management product for update", c8State, []⟩) ∧
    (∃ r, addUserSubscriptionToProduct c8State "u1" "prodA" "01ULID" =
      ⟨.right r,
       { c8State with
         subscriptions := upsertSubscription c8State.subscriptions "01ULID" r },
       [.subCreateOrUpdate "01ULID"]⟩ ∧
      r.productId = some "pid-1" ∧ r.state = some "active" ∧
      r.userId = some "u1" ∧ r.name = some "01ULID" ∧
      r.displayName = some "01ULID") :=
  ⟨(addUserSubscriptionToProduct_spec c8State "u1" "nope" "01ULID").1 rfl,
   (addUserSubscriptionToProduct_spec c8State "u1" "prodA" "01ULID").2
     ⟨some "pid-1"⟩ "pid-1" rfl rfl⟩

/-- C1: the claim says a still-valid cached pair (expiry in the future) is
returned unchanged with no login, and an expired pair triggers a fresh
login.  The code does the opposite: `isTokenExpired` is computed as
`tokenExpireTime >= Date.now()`, so at `now = 1000` a pair valid until 2000
triggers a fresh login, while a pair expired at 500 is returned unchanged
with no login performed — contradicting the source's own comment
"return old credentials in case the token is not expired". -/
theorem loginToApim_refreshes_valid_token :
    1000 < c1Valid.token.expiresOn ∧
    loginToApim 1000 c1Fresh (some c1Valid) = (c1Fresh, true) ∧
    c1Stale.token.expiresOn < 1000 ∧
    loginToApim 1000 c1Fresh (some c1Stale) = (c1Stale, false) := by
  decide

/-- C2: the claim says only the missing groups are added (`desired` minus
`current`) and exactly those are returned.  The code computes the missing
set but then reduces over the full desired list: with current groups
`{A}` and desired `[A, B]` it issues a creation call for `A` as well as
`B`, records both memberships, and returns `[A, B]` instead of `[B]`. -/
theorem addUserToGroups_readds_existing_group :
    (addUserToGroups c2State (some ⟨some "u1"⟩) ["A", "B"]).result
      = .ok (.right ["A", "B"]) ∧
    (addUserToGroups c2State (some ⟨some "u1"⟩) ["A", "B"]).events
      = [.groupUserCreateStart "A", .groupUserCreateEnd "A",
         .groupUserCreateStart "B", .groupUserCreateEnd "B"] ∧
    (addUserToGroups c2State (some ⟨some "u1"⟩) ["A", "B"]).state.memberships
      = [("A", "u1"), ("B", "u1")] := by
  decide

/-- C3 counterexample: with desired groups `[A, B, C]` and the creation of
`B` failing, the operation aborts after `B` (no call for `C`), the `A`
membership remains, but the failure comes back as a rejected promise
(`Except.error`), not as an explicit `left` result value — refuting the
claim's "returned as an explicit error result value rather than thrown". -/
theorem addUserToGroups_failure_rejects :
    (addUserToGroups c3State (some ⟨some "u1"⟩) ["A", "B", "C"]).result
      = .error (.callFailed "B") ∧
    isThrown (addUserToGroups c3State (some ⟨some "u1"⟩) ["A", "B", "C"]).result
      = true ∧
    (addUserToGroups c3State (some ⟨some "u1"⟩) ["A", "B", "C"]).state.memberships
      = [("A", "u1")] ∧
    (addUserToGroups c3State (some ⟨some "u1"⟩) ["A", "B", "C"]).events
      = [.groupUserCreateStart "A", .groupUserCreateEnd "A",
         .groupUserCreateStart "B", .groupUserCreateEnd "B"] := by
  decide

/-- The awaited reduction chain produces strictly sequential traces: each
group-creation call completes before the next begins. -/
theorem addGroupsSeq_events_seq (userName : String) (gs : List String) :
    ∀ (st : ApimState) (added : List String),
    seqOk (addGroupsSeq st userName added gs).events false = true := by
  induction gs with
  | nil =>
    intro st added
    rfl
  | cons g rest ih =>
    intro st added
    show seqOk (addGroupsSeq st userName added (g :: rest)).events false = true
    unfold addGroupsSeq groupUserCreate
    by_cases hf : g ∈ st.groupCreateFails
    · rw [if_pos hf]
      rfl
    · rw [if_neg hf]
      dsimp only
      have h2 := ih { st with memberships := st.memberships ++ [(g, userName)] }
        (added ++ [g])
      simpa [seqOk] using h2

/-- The trace of `addUserToGroups` is either empty or the trace of its
awaited reduction chain. -/
theorem addUserToGroups_events_cases (st : ApimState)
    (user : Option UserContract) (groups : List String) :
    (addUserToGroups st user groups).events = [] ∨
    ∃ userName, (addUserToGroups st user groups).events =
      (addGroupsSeq st userName [] groups).events := by
  unfold addUserToGroups
  cases user with
  | none => exact Or.inl rfl
  | some u =>
    dsimp only
    by_cases hn : falsyName u.name
    · rw [if_pos hn]
      exact Or.inl rfl
    · rw [if_neg hn]
      by_cases hm : (missingGroupsOf st (u.name.getD "") groups).isEmpty
      · rw [if_pos hm]
        exact Or.inl rfl
      · rw [if_neg hm]
        refine Or.inr ⟨u.name.getD "", ?_⟩
        cases hr : (addGroupsSeq st (u.name.getD "") [] groups).result with
        | ok added => rfl
        | error e => rfl

/-- C4: every trace of group-membership additions performed by
`addUserToGroups` is strictly sequential — a creation call begins only when
the previous one has completed, so no two calls are in flight at once. -/
theorem addUserToGroups_sequential (st : ApimState)
    (user : Option UserContract) (groups : List String) :
    seqOk (addUserToGroups st user groups).events false = true := by
  rcases addUserToGroups_events_cases st user groups with h | ⟨userName, h⟩
  · rw [h]
    rfl
  · rw [h]
    exact addGroupsSeq_events_seq userName groups st []

/-- When the creation of `g` fails after the groups in `done` succeeded,
the reduction chain stops at `g`: the successful memberships remain, the
trace ends with `g`'s call, and the rejection propagates. -/
theorem addGroupsSeq_fail (userName g : String) (rest : List String) :
    ∀ (done : List String) (st : ApimState) (added : List String),
    (∀ d ∈ done, d ∉ st.groupCreateFails) → g ∈ st.groupCreateFails →
    addGroupsSeq st userName added (done ++ g :: rest) =
      ⟨.error (.callFailed g),
       { st with memberships :=
           st.memberships ++ done.map (fun d => (d, userName)) },
       pairEvents (done ++ [g])⟩ := by
  intro done
  induction done with
  | nil =>
    intro st added _ hg
    show addGroupsSeq st userName added (g :: rest) = _
    unfold addGroupsSeq groupUserCreate
    rw [if_pos hg]
    dsimp only
    rw [List.map_nil, List.append_nil]
    rfl
  | cons d ds ih =>
    intro st added hdone hg
    have hd : d ∉ st.groupCreateFails := hdone d (List.mem_cons_self d ds)
    show addGroupsSeq st userName added (d :: (ds ++ g :: rest)) = _
    unfold addGroupsSeq groupUserCreate
    rw [if_neg hd]
    dsimp only
    rw [ih { st with memberships := st.memberships ++ [(d, userName)] }
      (added ++ [d]) (fun x hx => hdone x (List.mem_cons_of_mem d hx)) hg]
    simp [pairEvents, List.append_assoc]

/-- C3 (amended): if an individual group-add call fails partway through
`addUserToGroups`, the operation aborts (no call is issued for the
remaining groups), the memberships already added remain (no rollback), and
the failure propagates to the caller as a rejection (`Except.error`), not
as an explicit error result value. -/
theorem addUserToGroups_partial_failure (st : ApimState) (u : UserContract)
    (userName : String) (done : List String) (g : String) (rest : List String)
    (hname : u.name = some userName) (hne : userName ≠ "")
    (hdone : ∀ d ∈ done, d ∉ st.groupCreateFails)
    (hg : g ∈ st.groupCreateFails)
    (hmiss : some g ∉ (userGroupList st userName).map (fun c => c.name)) :
    addUserToGroups st (some u) (done ++ g :: rest) =
      ⟨.error (.callFailed g),
       { st with memberships :=
           st.memberships ++ done.map (fun d => (d, userName)) },
       pairEvents (done ++ [g])⟩ := by
  have hfn : falsyName u.name = false := by
    rw [hname]
    simp [falsyName, hne]
  have hgetd : u.name.getD "" = userName := by
    rw [hname]
    rfl
  have hmem : g ∈ missingGroupsOf st userName (done ++ g :: rest) := by
    unfold missingGroupsOf
    refine List.mem_filter.mpr ⟨by simp, ?_⟩
    simpa using hmiss
  have hne2 :
      (missingGroupsOf st userName (done ++ g :: rest)).isEmpty = false := by
    cases hmg : missingGroupsOf st userName (done ++ g :: rest) with
    | nil =>
      rw [hmg] at hmem
      cases hmem
    | cons a l => rfl
  unfold addUserToGroups
  dsimp only
  rw [if_neg (by simp [hfn])]
  rw [hgetd]
  rw [if_neg (by simp [hne2])]
  rw [addGroupsSeq_fail userName g rest done st [] hdone hg]

/-- C3 witness: the amended partial-failure behaviour at the concrete run
where the creation of `B` fails after `A` succeeded. -/
theorem addUserToGroups_partial_failure_witness :
    addUserToGroups c3State (some ⟨some "u1"⟩) (["A"] ++ "B" :: ["C"]) =
      ⟨.error (.callFailed "B"),
       { c3State with memberships :=
           c3State.memberships ++ ["A"].map (fun d => (d, "u1")) },
       pairEvents (["A"] ++ ["B"])⟩ :=
  addUserToGroups_partial_failure c3State ⟨some "u1"⟩ "u1" ["A"] "B" ["C"]
    rfl (by decide) (by decide) (by decide) (by decide)

/-- C9: `toEither` yields `right` exactly for a present response with
status 200 or 201; an absent response yields the "Response is empty" error
and any other status yields an error mentioning that status. -/
theorem toEither_spec {T : Type} (res : Option (ResponseType T)) :
    (∀ v : T, toEither res = .right v ↔
      ∃ r, res = some r ∧ (r.status = 200 ∨ r.status = 201) ∧ v = r.value) ∧
    (res = none → toEither res = .left "Response is empty") ∧
    (∀ r, res = some r → ¬(r.status = 200 ∨ r.status = 201) →
      toEither res = .left ("Error parsing response: " ++ toString r.status)) := by
  refine ⟨?_, ?_, ?_⟩
  · intro v
    constructor
    · intro h
      cases res with
      | none => simp [toEither] at h
      | some r =>
        by_cases hs : r.status = 200 ∨ r.status = 201
        · refine ⟨r, rfl, hs, ?_⟩
          simp [toEither, hs] at h
          exact h.symm
        · simp [toEither, hs] at h
    · rintro ⟨r, hr, hs, hv⟩
      subst hr
      subst hv
      simp [toEither, hs]
  · intro h
    subst h
    rfl
  · intro r hr hs
    subst hr
    simp [toEither, hs]

/-- C9 witness: the characterisation applied at concrete responses. -/
theorem toEither_spec_witness :
    toEither (some (⟨200, 5⟩ : ResponseType Nat)) = .right 5 ∧
    toEither (none : Option (ResponseType Nat)) = .left "Response is empty" :=
  ⟨((toEither_spec (some ⟨200, 5⟩)).1 5).mpr ⟨⟨200, 5⟩, rfl, Or.inl rfl, rfl⟩,
   (toEither_spec none).2.1 rfl⟩

end Portal
